import Mathlib

/-!
Verification of the clipboard-manager application shell
(src/src-tauri/src/lib.rs): the bootstrap composer and the tray-event
router.  The host framework (window manager, event loop, plugins) is
modelled as an explicit state; the router is a pure function from the
application state and the incoming tray event to the resulting state
and observable actions, transcribed arm by arm from the Rust source.
-/

/-- The observable flags of a window that the three manipulation calls
(`center`, `show`, `set_focus`) act on. -/
structure WindowState where
  centered : Bool
  visible : Bool
  focused : Bool
deriving DecidableEq, Repr

/-- The window manager visible to this code: `get_window(label)` is a
lookup of a window by its label. -/
structure AppState where
  windows : String → Option WindowState

/-- Transcribes `app.get_window(label)` from the source. -/
def get_window (app : AppState) (label : String) : Option WindowState :=
  app.windows label

/-- The window manager after one window's state is replaced, used to
record the effect of the manipulation calls on the looked-up window. -/
def setWindow (app : AppState) (label : String) (w : WindowState) : AppState :=
  ⟨fun n => if n = label then some w else app.windows n⟩

/-- Effect of `window.center()` on the window it is called on. -/
def centerWin (w : WindowState) : WindowState :=
  { w with centered := true }

/-- Effect of `window.show()` on the window it is called on. -/
def showWin (w : WindowState) : WindowState :=
  { w with visible := true }

/-- Effect of `window.set_focus()` on the window it is called on. -/
def setFocusWin (w : WindowState) : WindowState :=
  { w with focused := true }

/-- The tray events matched by the router's `match event` in the source:
`LeftClick`, `RightClick`, `DoubleClick` and `MenuItemClick \x7b id, .. \x7d`;
the source's trailing `_ => \x7b\x7d` arm covers the non-menu clicks. -/
inductive SystemTrayEvent where
  | LeftClick
  | RightClick
  | DoubleClick
  | MenuItemClick (id : String)
deriving DecidableEq, Repr

/-- What one invocation of the router produces: the application state
after the handler returns, and the exit code when `app.exit` was called. -/
structure TrayResult where
  app : AppState
  exitCode : Option Nat

/-- The `on_system_tray_event` closure of `run`, transcribed arm by arm
from the source.  The `LeftClick` arm and the `"show"` arm are kept as
the two separate blocks they are in the source; `match id.as_str()` is
rendered as the equivalent chain of string comparisons.  Window calls
are modelled at the effect level here (each call succeeds); the
refinement `on_system_tray_event_f` below makes their fallibility
explicit. -/
def on_system_tray_event (app : AppState) (event : SystemTrayEvent) : TrayResult :=
  match event with
  | SystemTrayEvent.LeftClick =>
    match get_window app "main" with
    | some w => { app := setWindow app "main" (setFocusWin (showWin (centerWin w))), exitCode := none }
    | none => { app := app, exitCode := none }
  | SystemTrayEvent.MenuItemClick id =>
    if id = "quit" then
      { app := app, exitCode := some 0 }
    else if id = "show" then
      match get_window app "main" with
      | some w => { app := setWindow app "main" (setFocusWin (showWin (centerWin w))), exitCode := none }
      | none => { app := app, exitCode := none }
    else
      { app := app, exitCode := none }
  | _ => { app := app, exitCode := none }

/-- A sample application state whose window manager holds the window
labelled "main", not yet centered, visible or focused. -/
def sampleApp : AppState :=
  ⟨fun n => if n = "main" then some ⟨false, false, false⟩ else none⟩

/-- A sample application state whose window manager holds no window. -/
def emptyApp : AppState :=
  ⟨fun _ => none⟩

/-- Claim C1: for a left-click or a menu-item click with id "show", the
router looks up the window named "main"; when it is found all three
effects (center, make visible, give input focus) are applied and no exit
is requested; when it is not found the event is a no-op. -/
theorem show_events_center_show_focus_main (app : AppState) (e : SystemTrayEvent)
    (he : e = SystemTrayEvent.LeftClick ∨ e = SystemTrayEvent.MenuItemClick "show") :
    (get_window app "main" = none → on_system_tray_event app e = ⟨app, none⟩) ∧
    (∀ w, get_window app "main" = some w →
      on_system_tray_event app e = ⟨setWindow app "main" ⟨true, true, true⟩, none⟩) := by
  rcases he with he | he <;> subst he <;>
    refine ⟨fun h => ?_, fun w hw => ?_⟩ <;>
    simp [on_system_tray_event, *] <;>
    cases w <;> simp [centerWin, showWin, setFocusWin]

/-- Claim C1 witness: on a concrete state holding the "main" window, a
left-click yields the centered, visible, focused window and no exit. -/
theorem show_events_center_show_focus_main_witness :
    on_system_tray_event sampleApp SystemTrayEvent.LeftClick =
      ⟨setWindow sampleApp "main" ⟨true, true, true⟩, none⟩ :=
  (show_events_center_show_focus_main sampleApp SystemTrayEvent.LeftClick
    (Or.inl rfl)).2 ⟨false, false, false⟩ rfl

/-- Claim C2: a menu-item click with id "quit" makes the router request
process exit with code 0 and perform no other action, whatever the
current application state (hence regardless of prior event history). -/
theorem quit_exits_zero (app : AppState) :
    on_system_tray_event app (SystemTrayEvent.MenuItemClick "quit") = ⟨app, some 0⟩ := by
  simp [on_system_tray_event]

/-- Claim C3: a tray event that is neither a left-click nor a menu-item
click with id "show" or "quit" leaves the state untouched and requests
no exit. -/
theorem other_events_noop (app : AppState) (e : SystemTrayEvent)
    (h1 : e ≠ SystemTrayEvent.LeftClick)
    (h2 : e ≠ SystemTrayEvent.MenuItemClick "quit")
    (h3 : e ≠ SystemTrayEvent.MenuItemClick "show") :
    on_system_tray_event app e = ⟨app, none⟩ := by
  cases e with
  | LeftClick => exact absurd rfl h1
  | RightClick => rfl
  | DoubleClick => rfl
  | MenuItemClick id =>
    have hq : id ≠ "quit" := fun h => h2 (by rw [h])
    have hs : id ≠ "show" := fun h => h3 (by rw [h])
    simp [on_system_tray_event, hq, hs]

/-- Claim C3 witness: a right-click on a concrete state is a no-op. -/
theorem other_events_noop_witness :
    on_system_tray_event sampleApp SystemTrayEvent.RightClick = ⟨sampleApp, none⟩ :=
  other_events_noop sampleApp SystemTrayEvent.RightClick
    (by decide) (by decide) (by decide)

/-- Claim C5: the router requests process exit only on a menu-item click
with id "quit", and then with code 0; no other tray event produces an
exit code. -/
theorem exit_only_on_quit (app : AppState) (e : SystemTrayEvent) (c : Nat)
    (h : (on_system_tray_event app e).exitCode = some c) :
    e = SystemTrayEvent.MenuItemClick "quit" ∧ c = 0 := by
  cases e with
  | LeftClick =>
    rcases hw : get_window app "main" with _ | w <;>
      simp [on_system_tray_event, hw] at h
  | RightClick => simp [on_system_tray_event] at h
  | DoubleClick => simp [on_system_tray_event] at h
  | MenuItemClick id =>
    by_cases hq : id = "quit"
    · subst hq
      simp [on_system_tray_event] at h
      exact ⟨rfl, h.symm⟩
    · by_cases hs : id = "show"
      · subst hs
        rcases hw : get_window app "main" with _ | w <;>
          simp [on_system_tray_event, hw] at h
      · simp [on_system_tray_event, hq, hs] at h

/-- Claim C5 witness: the "quit" click on a concrete state does produce
an exit code, and the theorem identifies the event and the code. -/
theorem exit_only_on_quit_witness :
    (on_system_tray_event sampleApp (SystemTrayEvent.MenuItemClick "quit")).exitCode = some 0 ∧
    (SystemTrayEvent.MenuItemClick "quit" = SystemTrayEvent.MenuItemClick "quit" ∧ 0 = 0) :=
  ⟨by simp [on_system_tray_event],
   exit_only_on_quit sampleApp (SystemTrayEvent.MenuItemClick "quit") 0
     (by simp [on_system_tray_event])⟩

/-- Claim C6: the left-click arm and the "show" menu arm of the router
compute the same function of the application state. -/
theorem left_click_eq_show_click (app : AppState) :
    on_system_tray_event app SystemTrayEvent.LeftClick =
      on_system_tray_event app (SystemTrayEvent.MenuItemClick "show") := by
  rcases hw : get_window app "main" with _ | w <;>
    simp [on_system_tray_event, hw]

/-- Claim C10: menu-item id matching is exact, case-sensitive string
equality; a click whose id is any string other than exactly "quit" or
exactly "show" is a no-op. -/
theorem menu_id_match_exact (app : AppState) (id : String)
    (hq : id ≠ "quit") (hs : id ≠ "show") :
    on_system_tray_event app (SystemTrayEvent.MenuItemClick id) = ⟨app, none⟩ := by
  simp [on_system_tray_event, hq, hs]

/-- Claim C10 witness: case variants and ids with surrounding whitespace
are no-ops on a concrete state. -/
theorem menu_id_match_exact_witness :
    on_system_tray_event sampleApp (SystemTrayEvent.MenuItemClick "Quit") = ⟨sampleApp, none⟩ ∧
    on_system_tray_event sampleApp (SystemTrayEvent.MenuItemClick "SHOW") = ⟨sampleApp, none⟩ ∧
    on_system_tray_event sampleApp (SystemTrayEvent.MenuItemClick " show ") = ⟨sampleApp, none⟩ :=
  ⟨menu_id_match_exact sampleApp "Quit" (by decide) (by decide),
   menu_id_match_exact sampleApp "SHOW" (by decide) (by decide),
   menu_id_match_exact sampleApp " show " (by decide) (by decide)⟩

/-- The window-manipulation calls a router invocation attempts, in
order, together with a requested process exit. -/
inductive TrayAction where
  | centerWindow (label : String)
  | showWindow (label : String)
  | setFocusWindow (label : String)
  | exitApp (code : Nat)
deriving DecidableEq, Repr

/-- Which of the three fallible window calls fail during one router
invocation (e.g. because the window handle went stale). -/
structure WindowCallFailures where
  centerFails : Bool
  showFails : Bool
  setFocusFails : Bool
deriving DecidableEq, Repr

/-- `window.center()` as the fallible call it is in the source: on
failure the window is unchanged and an error value is produced. -/
def centerCall (fail : Bool) (w : WindowState) : WindowState × Except String Unit :=
  if fail then (w, Except.error "center failed") else (centerWin w, Except.ok ())

/-- `window.show()` as the fallible call it is in the source. -/
def showCall (fail : Bool) (w : WindowState) : WindowState × Except String Unit :=
  if fail then (w, Except.error "show failed") else (showWin w, Except.ok ())

/-- `window.set_focus()` as the fallible call it is in the source. -/
def setFocusCall (fail : Bool) (w : WindowState) : WindowState × Except String Unit :=
  if fail then (w, Except.error "set_focus failed") else (setFocusWin w, Except.ok ())

/-- What one invocation of the failure-aware router produces: the state
after the handler, the requested exit code, the window calls attempted
in order, the log output the handler emitted, and the handler's own
return channel (an error there would be one the handler surfaced). -/
structure TrayResultF where
  app : AppState
  exitCode : Option Nat
  attempted : List TrayAction
  logs : List String
  returned : Except String Unit

/-- The same `on_system_tray_event` closure, with the fallibility of
the three window calls made explicit.  Each call's `Result` is bound
and discarded, exactly as the source's three `let _ =` statements do;
the handler emits no log and always returns normally. -/
def on_system_tray_event_f (fails : WindowCallFailures) (app : AppState)
    (event : SystemTrayEvent) : TrayResultF :=
  match event with
  | SystemTrayEvent.LeftClick =>
    match get_window app "main" with
    | some w =>
      let p1 := centerCall fails.centerFails w
      let p2 := showCall fails.showFails p1.1
      let p3 := setFocusCall fails.setFocusFails p2.1
      { app := setWindow app "main" p3.1
        exitCode := none
        attempted := [TrayAction.centerWindow "main", TrayAction.showWindow "main",
                      TrayAction.setFocusWindow "main"]
        logs := []
        returned := Except.ok () }
    | none =>
      { app := app, exitCode := none, attempted := [], logs := [], returned := Except.ok () }
  | SystemTrayEvent.MenuItemClick id =>
    if id = "quit" then
      { app := app, exitCode := some 0, attempted := [TrayAction.exitApp 0], logs := [],
        returned := Except.ok () }
    else if id = "show" then
      match get_window app "main" with
      | some w =>
        let p1 := centerCall fails.centerFails w
        let p2 := showCall fails.showFails p1.1
        let p3 := setFocusCall fails.setFocusFails p2.1
        { app := setWindow app "main" p3.1
          exitCode := none
          attempted := [TrayAction.centerWindow "main", TrayAction.showWindow "main",
                        TrayAction.setFocusWindow "main"]
          logs := []
          returned := Except.ok () }
      | none =>
        { app := app, exitCode := none, attempted := [], logs := [], returned := Except.ok () }
    else
      { app := app, exitCode := none, attempted := [], logs := [], returned := Except.ok () }
  | _ =>
    { app := app, exitCode := none, attempted := [], logs := [], returned := Except.ok () }

/-- When no call fails, the failure-aware router agrees with the
effect-level router on the resulting state and exit code. -/
theorem on_system_tray_event_f_nofail (app : AppState) (e : SystemTrayEvent) :
    (on_system_tray_event_f ⟨false, false, false⟩ app e).app =
      (on_system_tray_event app e).app ∧
    (on_system_tray_event_f ⟨false, false, false⟩ app e).exitCode =
      (on_system_tray_event app e).exitCode := by
  cases e with
  | LeftClick =>
    rcases hw : get_window app "main" with _ | w <;>
      simp [on_system_tray_event, on_system_tray_event_f, hw,
        centerCall, showCall, setFocusCall]
  | RightClick => exact ⟨rfl, rfl⟩
  | DoubleClick => exact ⟨rfl, rfl⟩
  | MenuItemClick id =>
    by_cases hq : id = "quit"
    · subst hq; simp [on_system_tray_event, on_system_tray_event_f]
    · by_cases hs : id = "show"
      · subst hs
        rcases hw : get_window app "main" with _ | w <;>
          simp [on_system_tray_event, on_system_tray_event_f, hw, hq,
            centerCall, showCall, setFocusCall]
      · simp [on_system_tray_event, on_system_tray_event_f, hq, hs]

/-- Claim C7: for a left-click or "show" click, the failures of the
three window calls are discarded: whichever subset of the calls fails,
the handler returns normally, surfaces no error, emits no log, requests
no exit, and, when the window was found, attempted each of the three
calls exactly once (no retries). -/
theorem show_failures_discarded (fails : WindowCallFailures) (app : AppState)
    (e : SystemTrayEvent)
    (he : e = SystemTrayEvent.LeftClick ∨ e = SystemTrayEvent.MenuItemClick "show") :
    (on_system_tray_event_f fails app e).returned = Except.ok () ∧
    (on_system_tray_event_f fails app e).logs = [] ∧
    (on_system_tray_event_f fails app e).exitCode = none ∧
    (∀ w, get_window app "main" = some w →
      (on_system_tray_event_f fails app e).attempted =
        [TrayAction.centerWindow "main", TrayAction.showWindow "main",
         TrayAction.setFocusWindow "main"]) := by
  rcases he with he | he <;> subst he <;>
    rcases hw : get_window app "main" with _ | w <;>
    simp [on_system_tray_event_f, hw]

/-- Claim C7 witness: with all three calls failing on a concrete state
holding the "main" window, a left-click still returns normally, logs
nothing, requests no exit, and attempted each call once. -/
theorem show_failures_discarded_witness :
    (on_system_tray_event_f ⟨true, true, true⟩ sampleApp SystemTrayEvent.LeftClick).returned =
      Except.ok () ∧
    (on_system_tray_event_f ⟨true, true, true⟩ sampleApp SystemTrayEvent.LeftClick).logs = [] ∧
    (on_system_tray_event_f ⟨true, true, true⟩ sampleApp SystemTrayEvent.LeftClick).exitCode =
      none ∧
    (on_system_tray_event_f ⟨true, true, true⟩ sampleApp SystemTrayEvent.LeftClick).attempted =
      [TrayAction.centerWindow "main", TrayAction.showWindow "main", TrayAction.setFocusWindow "main"] := by
  have h := show_failures_discarded ⟨true, true, true⟩ sampleApp
    SystemTrayEvent.LeftClick (Or.inl rfl)
  exact ⟨h.1, h.2.1, h.2.2.1, h.2.2.2 ⟨false, false, false⟩ rfl⟩

/-- A tray menu item as built by `CustomMenuItem::new(id, title)`. -/
structure CustomMenuItem where
  id : String
  title : String
deriving DecidableEq, Repr

/-- Transcribes `CustomMenuItem::new`. -/
def CustomMenuItem.new (id title : String) : CustomMenuItem :=
  { id := id, title := title }

/-- A tray menu: the ordered list of items added to it. -/
structure SystemTrayMenu where
  items : List CustomMenuItem
deriving DecidableEq, Repr

/-- Transcribes `SystemTrayMenu::new()`: an empty menu. -/
def SystemTrayMenu.new : SystemTrayMenu :=
  { items := [] }

/-- Transcribes `SystemTrayMenu::add_item`: appends one item. -/
def SystemTrayMenu.add_item (m : SystemTrayMenu) (i : CustomMenuItem) : SystemTrayMenu :=
  { items := m.items ++ [i] }

/-- The `quit` item of `run`: `CustomMenuItem::new("quit", "Quit")`. -/
def quitItem : CustomMenuItem :=
  CustomMenuItem.new "quit" "Quit"

/-- The `show` item of `run`:
`CustomMenuItem::new("show", "Show Clipboard Manager")`. -/
def showItem : CustomMenuItem :=
  CustomMenuItem.new "show" "Show Clipboard Manager"

/-- The `tray_menu` of `run`:
`SystemTrayMenu::new().add_item(show).add_item(quit)`. -/
def tray_menu : SystemTrayMenu :=
  (SystemTrayMenu.new.add_item showItem).add_item quitItem

/-- Claim C8: the tray menu built at startup has exactly two entries,
id "show" labelled "Show Clipboard Manager" and id "quit" labelled
"Quit", in that order. -/
theorem tray_menu_two_entries :
    tray_menu.items.length = 2 ∧
    tray_menu.items.map (fun i => (i.id, i.title)) =
      [("show", "Show Clipboard Manager"), ("quit", "Quit")] := by
  constructor <;> rfl

/-- Migration direction, as in the persistence plugin's `MigrationKind`. -/
inductive MigrationKind where
  | Up
  | Down
deriving DecidableEq, Repr

/-- A migration descriptor, as in the persistence plugin's `Migration`. -/
structure Migration where
  version : Nat
  description : String
  sql : String
  kind : MigrationKind
deriving DecidableEq, Repr

/-- The DDL text of `migrations/001_create_clipboard_history.sql`,
loaded into the binary at build time.  The file is not under `src/`;
the spec treats its content as an uninterpreted blob, and no claim
depends on it, so it is kept as an unconstrained placeholder string. -/
def create_clipboard_history_sql : String :=
  "CREATE TABLE clipboard_history (…);"

/-- The migration registrations handed to the persistence plugin by
`run`: each entry pairs a database identifier with its migration list.
The source registers exactly one entry, for "sqlite:clipboard.db",
carrying the single version-1 Up migration. -/
def sql_migrations : List (String × List Migration) :=
  [("sqlite:clipboard.db",
    [{ version := 1
       description := "create clipboard history table"
       sql := create_clipboard_history_sql
       kind := MigrationKind.Up }])]

/-- Claim C4: exactly one migration descriptor is registered, for the
database identifier "sqlite:clipboard.db", with version 1 and kind Up. -/
theorem one_migration_v1_up :
    sql_migrations.length = 1 ∧
    sql_migrations.map Prod.fst = ["sqlite:clipboard.db"] ∧
    sql_migrations.map (fun e => e.2.map Migration.version) = [[1]] ∧
    sql_migrations.map (fun e => e.2.map Migration.kind) = [[MigrationKind.Up]] := by
  refine ⟨rfl, rfl, rfl, rfl⟩

/-- How the process ends up after the builder's `run` call returns
control to `run`'s caller. -/
inductive ProcessOutcome where
  | finished
  | panicked (msg : String)
deriving DecidableEq, Repr

/-- Transcribes `.run(...).expect("error while running tauri
application")`: an error from the host runtime's run call becomes an
immediate panic carrying the fatal diagnostic message; there is no
other arm, so no retry and no recovery path. -/
def handle_run_result (res : Except String Unit) : ProcessOutcome :=
  match res with
  | Except.ok _ => ProcessOutcome.finished
  | Except.error e =>
    ProcessOutcome.panicked ("error while running tauri application: " ++ e)

/-- Claim C9: if the host runtime's run call fails, the process ends in
an immediate panic carrying the fatal diagnostic message — never in a
normal finish, for any error value, with no retry or recovery arm. -/
theorem run_failure_is_fatal (e : String) :
    handle_run_result (Except.error e) =
      ProcessOutcome.panicked ("error while running tauri application: " ++ e) ∧
    handle_run_result (Except.error e) ≠ ProcessOutcome.finished := by
  exact ⟨rfl, by simp [handle_run_result]⟩

/-- Claim C2 witness: the "quit" click evaluated on a concrete state. -/
theorem quit_exits_zero_witness :
    on_system_tray_event sampleApp (SystemTrayEvent.MenuItemClick "quit") =
      ⟨sampleApp, some 0⟩ :=
  quit_exits_zero sampleApp

/-- Claim C6 witness: the two arms agree on a concrete state. -/
theorem left_click_eq_show_click_witness :
    on_system_tray_event sampleApp SystemTrayEvent.LeftClick =
      on_system_tray_event sampleApp (SystemTrayEvent.MenuItemClick "show") :=
  left_click_eq_show_click sampleApp

/-- Claim C9 witness: a concrete runtime error becomes the fatal
diagnostic panic. -/
theorem run_failure_is_fatal_witness :
    handle_run_result (Except.error "webview init failed") =
      ProcessOutcome.panicked
        ("error while running tauri application: " ++ "webview init failed") ∧
    handle_run_result (Except.error "webview init failed") ≠ ProcessOutcome.finished :=
  run_failure_is_fatal "webview init failed"
